import Mathlib

/-
  Verification of the DeepseekOllamaRag session pipeline.

  Shallow embedding of `backend/app/main.py` (the HTTP API front-end; `app.py`
  contains byte-for-byte the same `format_inputs` shim and answer-key
  extraction).  Python strings are modelled as `String` / `List Char`; the
  Python string methods used by the code (`lower`, `endswith`, `split`,
  `strip`, `join`) are given executable translations below, since the
  corresponding Lean `String` library functions do not reduce in the kernel.

  External collaborators (PDF loader, chunker, embedding model, FAISS, the
  Ollama LLM) are opaque: their outcomes enter the model as explicit
  parameters (`ollama_running : Bool`, `build_result : Except String Nat`,
  `invoke_result : Except String PipelineResponse`), exactly at the points
  where the Python code calls out to them.
-/

namespace DeepseekRag

/-! ## Python string primitives (List Char level) -/

/-- ASCII lowering of one character; Python `str.lower` restricted to the
ASCII range, which is all the code ever compares (`.pdf` suffix). -/
def pyLowerChar (c : Char) : Char :=
  if 65 ≤ c.toNat ∧ c.toNat ≤ 90 then Char.ofNat (c.toNat + 32) else c

/-- Python `s.lower()`. -/
def pyLower (s : List Char) : List Char := s.map pyLowerChar

/-- Python `str.strip()` whitespace set. -/
def pyIsSpace (c : Char) : Bool :=
  decide (c = ' ' ∨ c = '\t' ∨ c = '\n' ∨ c = '\r' ∨ c = '\x0b' ∨ c = '\x0c')

/-- Python `s.strip()`: drop whitespace from both ends. -/
def pyStrip (s : List Char) : List Char :=
  ((s.dropWhile pyIsSpace).reverse.dropWhile pyIsSpace).reverse

/-- If `ps` is a literal prefix of `cs`, return the remainder. -/
def stripPrefixChars : List Char → List Char → Option (List Char)
  | [], rest => some rest
  | _ :: _, [] => none
  | p :: ps, c :: cs => if p = c then stripPrefixChars ps cs else none

/-- Worker for Python `s.split(sep)`: greedy left-to-right scan cutting at
every non-overlapping occurrence of `sep`.  The fuel argument (instantiated
with `s.length`, which bounds the number of scan steps) keeps the recursion
structural so that the kernel can evaluate it. -/
def pySplitAux (sep : List Char) : Nat → List Char → List (List Char)
  | _, [] => [[]]
  | 0, s => [s]
  | fuel + 1, c :: cs =>
    match stripPrefixChars sep (c :: cs) with
    | some rest => [] :: pySplitAux sep fuel rest
    | none =>
      match pySplitAux sep fuel cs with
      | [] => [[c]]
      | h :: t => (c :: h) :: t

/-- Python `s.split(sep)` for a non-empty separator. -/
def pySplit (sep s : List Char) : List (List Char) := pySplitAux sep s.length s

/-- Python `s.endswith(suffix)`. -/
def pyEndsWith (s suffix : List Char) : Bool :=
  decide (suffix.length ≤ s.length) && decide (s.drop (s.length - suffix.length) = suffix)

/-- Python `str(x)` for `None` versus a string, as interpolated by an
f-string (`f"... {session['error']}"`). -/
def pyStrOfNullable : Option String → String
  | none => "None"
  | some s => s

/-! ## Dictionaries -/

/-- Python dict with string keys and string values, as an association list
(keys unique in every dict the code builds; lookup takes the first hit). -/
abbrev Dict := List (String × String)

/-- Key lookup in an association list (Python `d[k]` / `k in d`). -/
def lookupKey {α : Type} (k : String) : List (String × α) → Option α
  | [] => none
  | e :: rest => if k = e.1 then some e.2 else lookupKey k rest

/-- Python `str(d)` rendering of a string-valued dict,
`\x7b'k': 'v', ...\x7d`. -/
def pyStrOfDict (entries : Dict) : String :=
  "\x7b"
    ++ String.intercalate (", ")
        (entries.map (fun e => "\x27" ++ e.1 ++ "\x27: \x27" ++ e.2 ++ "\x27"))
    ++ "\x7d"

/-! ## The input-normalization shim (`format_inputs`, main.py lines 133-141) -/

def questionKey : String := "question"

def inputKey : String := "input"

/-- The `ValueError` message raised by `format_inputs`. -/
def missingKeyError : String :=
  "Input must contain either \x27question\x27 or \x27input\x27 key"

/-- main.py `format_inputs` (identical in app.py): normalize either the
`question` or the `input` key into `\x7bquestion: value\x7d`; raise
`ValueError` when neither key is present. -/
def format_inputs (inputs : Dict) : Except String Dict :=
  match lookupKey questionKey inputs with
  | some question => Except.ok [(questionKey, question)]
  | none =>
    match lookupKey inputKey inputs with
    | some question => Except.ok [(questionKey, question)]
    | none => Except.error missingKeyError

/-! ## Answer extraction (`ask_question`, main.py lines 251-264) -/

/-- The raw value returned by `retrieval_chain.invoke`: either a dict or
some non-dict value carried together with its `str()` rendering. -/
inductive PipelineResponse where
  | dict (entries : Dict)
  | other (rendered : String)
deriving DecidableEq

def answerKey : String := "answer"

def resultKey : String := "result"

def outputKey : String := "output"

def responseKey : String := "response"

/-- main.py lines 251-264: probe the response keys in the fixed order
`answer`, `result`, `output`, `response`; fall back to `str(response)`. -/
def extract_answer : PipelineResponse → String
  | PipelineResponse.dict entries =>
    match lookupKey answerKey entries with
    | some a => a
    | none =>
      match lookupKey resultKey entries with
      | some a => a
      | none =>
        match lookupKey outputKey entries with
        | some a => a
        | none =>
          match lookupKey responseKey entries with
          | some a => a
          | none => pyStrOfDict entries
  | PipelineResponse.other rendered => rendered

/-! ## Reasoning split (`ask_question`, main.py lines 267-290) -/

def finalAnswerDelim : String := "\n\nFinal Answer:"

def finalAnswerLabel : String := "Final Answer:"

def paragraphSep : String := "\n\n"

/-- The `result` dict built by the include-reasoning branch. -/
structure SplitResult where
  thinking : Option String
  answer : String
deriving DecidableEq

/-- main.py lines 270-288.  `"\n\nFinal Answer:" in answer` holds exactly
when the split yields at least two parts, and `answer.count("\n\n") > 0`
holds exactly when the paragraph split yields at least two parts, so both
Python conditions are expressed by matching on the split. The delimiter
branch uses `parts[0]` and `parts[1]` only, as the Python code does. -/
def split_reasoning (answer : String) : SplitResult :=
  match pySplit finalAnswerDelim.data answer.data with
  | p0 :: p1 :: _ =>
      { thinking := some (String.mk (pyStrip p0)),
        answer := String.mk (finalAnswerLabel.data ++ pyStrip p1) }
  | _ =>
    match pySplit paragraphSep.data answer.data with
    | q0 :: q1 :: qs =>
        { thinking := some
            (String.mk (List.intercalate paragraphSep.data (List.dropLast (q0 :: q1 :: qs)))),
          answer := String.mk ((q0 :: q1 :: qs).getLastD []) }
    | _ => { thinking := none, answer := answer }

/-! ## Sessions and the document store (main.py lines 41-78) -/

def statusNone : String := "none"

def statusUploaded : String := "uploaded"

def statusProcessing : String := "processing"

def statusCompleted : String := "completed"

def statusError : String := "error"

/-- One entry of `document_store` (main.py lines 71-77).  The retrieval
chain and the stored formatter closure are opaque handles; only
presence/identity matters, so the chain is a `Nat` tag.  The `processor`
key is initialized to `None` and never read or written again, so it is
omitted.  The `retrieval_chain_formatter` closure stored on success is the
function `format_inputs` itself and is not duplicated here. -/
structure Session where
  status : String
  retrieval_chain : Option Nat
  filename : Option String
  error : Option String
deriving DecidableEq

/-- The dict a fresh session is initialized with (main.py lines 71-77). -/
def freshSession : Session :=
  { status := statusNone, retrieval_chain := none, filename := none, error := none }

/-- The global `document_store` dict, session id to session. -/
abbrev DocumentStore := List (String × Session)

/-- The module-level `document_store = \x7b\x7d` initial state. -/
def document_store : DocumentStore := []

/-- In-place mutation of the session stored under `session_id` (Python
mutates the dict held in `document_store`, so every alias sees the new
value; here the entry is replaced). -/
def setSession (session_id : String) (s : Session) (store : DocumentStore) : DocumentStore :=
  store.map (fun e => if e.1 = session_id then (session_id, s) else e)

/-- main.py `get_or_create_session_store`: return the session for
`session_id`, inserting a fresh one first when absent. -/
def get_or_create_session_store (session_id : String) (store : DocumentStore) :
    Session × DocumentStore :=
  match lookupKey session_id store with
  | some s => (s, store)
  | none => (freshSession, (session_id, freshSession) :: store)

/-! ## HTTP-level values -/

/-- A raised `HTTPException`. -/
structure HTTPError where
  status_code : Nat
  detail : String
deriving DecidableEq

/-- The `DocumentProcessResponse` model. -/
structure UploadResponse where
  session_id : String
  status : String
  message : String
deriving DecidableEq

/-- The dict returned by `document_status`. -/
structure StatusResponse where
  session_id : String
  status : String
  filename : Option String
  error : Option String
deriving DecidableEq

/-- The `QuestionRequest` model. -/
structure QuestionRequest where
  question : String
  session_id : String
  include_reasoning : Bool
deriving DecidableEq

/-- The `QuestionResponse` model. -/
structure QuestionResponse where
  answer : String
  thinking : Option String
deriving DecidableEq

/-- A task handed to `background_tasks.add_task` by `upload_document`
(the temp-file path argument is an OS artifact and is not recorded). -/
structure BackgroundTask where
  session_id : String
  filename : String
deriving DecidableEq

/-! ## process_document (main.py lines 80-168) -/

/-- The message stored when the Ollama pre-flight check fails
(main.py line 89). -/
def ollamaNotRunningMsg : String :=
  "Ollama is not running. Please start Ollama before processing documents."

/-- main.py `process_document`, as one atomic background step.  External
effects are parameters: `ollama_running` is the pre-flight
`is_ollama_running()` probe, and `build_result` is the outcome of the whole
load/chunk/index/chain-assembly block (a chain handle on success, the
stringified exception on failure); the Python `except` clause maps the
failure to `status = error`.  The `file_path` argument of the Python
function is consumed only by the external loader and is not modelled.
Note that on success the old `error` field is left in place, and on failure
the old `retrieval_chain` is left in place, exactly as in the source. -/
def process_document (ollama_running : Bool) (build_result : Except String Nat)
    (session_id : String) (filename : String) (store : DocumentStore) : DocumentStore :=
  let sp := get_or_create_session_store session_id store
  let session0 := { sp.1 with status := statusProcessing, filename := some filename }
  let store1 := setSession session_id session0 sp.2
  if ollama_running then
    match build_result with
    | Except.ok chain =>
        setSession session_id
          { session0 with retrieval_chain := some chain, status := statusCompleted } store1
    | Except.error e =>
        setSession session_id
          { session0 with status := statusError, error := some e } store1
  else
    setSession session_id
      { session0 with status := statusError, error := some ollamaNotRunningMsg } store1

/-! ## upload_document (main.py lines 180-218) -/

def sessionIdRequiredMsg : String := "Session ID is required"

def onlyPdfMsg : String := "Only PDF files are supported"

def pdfSuffix : String := ".pdf"

def uploadedMsgPre : String := "Document \x27"

def uploadedMsgPost : String := "\x27 uploaded and is being processed"

/-- main.py `upload_document`.  `session_id = none` models the missing
query parameter; Python `if not session_id` also fires on the empty
string.  `file_io` is the outcome of reading the upload and writing the
temp file (the only fallible statements inside the `try`, surfaced as a
500).  Returns the response (or raised error), the updated store, and the
background tasks scheduled. -/
def upload_document (session_id : Option String) (filename : String)
    (file_io : Except String Unit) (store : DocumentStore) :
    Except HTTPError UploadResponse × DocumentStore × List BackgroundTask :=
  match session_id with
  | none => (Except.error { status_code := 400, detail := sessionIdRequiredMsg }, store, [])
  | some sid =>
    if sid = "" then
      (Except.error { status_code := 400, detail := sessionIdRequiredMsg }, store, [])
    else if pyEndsWith (pyLower filename.data) pdfSuffix.data = false then
      (Except.error { status_code := 400, detail := onlyPdfMsg }, store, [])
    else
      match file_io with
      | Except.error e => (Except.error { status_code := 500, detail := e }, store, [])
      | Except.ok _ =>
        let sp := get_or_create_session_store sid store
        let store1 := setSession sid { sp.1 with status := statusUploaded } sp.2
        (Except.ok { session_id := sid, status := statusProcessing,
                     message := uploadedMsgPre ++ filename ++ uploadedMsgPost },
         store1,
         [{ session_id := sid, filename := filename }])

/-! ## document_status (main.py lines 220-229) -/

/-- main.py `document_status` (note it creates the session when absent). -/
def document_status (session_id : String) (store : DocumentStore) :
    StatusResponse × DocumentStore :=
  let sp := get_or_create_session_store session_id store
  ({ session_id := session_id, status := sp.1.status,
     filename := sp.1.filename, error := sp.1.error }, sp.2)

/-! ## ask_question (main.py lines 231-295) -/

def errorProcessingDocPre : String := "Error processing document: "

def notCompletedMsg : String := "Document processing not completed"

def noDocMsg : String := "No document has been processed for this session"

def errorProcessingQuestionPre : String := "Error processing question: "

/-- main.py `ask_question`.  `invoke_result` is the outcome of
`retrieval_chain.invoke` (the response value, or the stringified exception
the `except` clause turns into a 500).  The Python code tests
`status != "completed"` first; the branch order is flipped here with
identical semantics.  The stored formatter closure is `format_inputs`,
applied to `\x7b"input": request.question\x7d` exactly as on line 247;
a formatter exception would be caught by the same `except` clause. -/
def ask_question (invoke_result : Except String PipelineResponse)
    (request : QuestionRequest) (store : DocumentStore) :
    Except HTTPError QuestionResponse × DocumentStore :=
  let sp := get_or_create_session_store request.session_id store
  let session := sp.1
  let store1 := sp.2
  if session.status = statusCompleted then
    if session.retrieval_chain = none then
      (Except.error { status_code := 400, detail := noDocMsg }, store1)
    else
      match format_inputs [(inputKey, request.question)] with
      | Except.error e =>
          (Except.error { status_code := 500, detail := errorProcessingQuestionPre ++ e },
           store1)
      | Except.ok _formatted =>
        match invoke_result with
        | Except.error e =>
            (Except.error { status_code := 500, detail := errorProcessingQuestionPre ++ e },
             store1)
        | Except.ok response =>
          let answer := extract_answer response
          if request.include_reasoning then
            let r := split_reasoning answer
            (Except.ok { answer := r.answer, thinking := r.thinking }, store1)
          else
            (Except.ok { answer := answer, thinking := none }, store1)
  else
    if session.status = statusError then
      (Except.error
        { status_code := 400,
          detail := errorProcessingDocPre ++ pyStrOfNullable session.error },
       store1)
    else
      (Except.error { status_code := 400, detail := notCompletedMsg }, store1)

/-! ## Operation sequences -/

/-- One observable operation against the service.  `build` is the
background half of an upload; its external outcomes ride along as data. -/
inductive Op where
  | upload (session_id : Option String) (filename : String) (file_io : Except String Unit)
  | build (session_id : String) (filename : String) (ollama_running : Bool)
      (build_result : Except String Nat)
  | statusCheck (session_id : String)
  | ask (request : QuestionRequest) (invoke_result : Except String PipelineResponse)

/-- The store after one operation. -/
def stepStore (store : DocumentStore) : Op → DocumentStore
  | Op.upload sid fn io => (upload_document sid fn io store).2.1
  | Op.build sid fn running res => process_document running res sid fn store
  | Op.statusCheck sid => (document_status sid store).2
  | Op.ask req res => (ask_question res req store).2

/-- The store after a sequence of operations. -/
def runOps (store : DocumentStore) (ops : List Op) : DocumentStore :=
  ops.foldl stepStore store

/-- True when the operation is (part of) an upload addressed to `sid`:
either the HTTP upload itself or the background build it schedules. -/
def opUploadsTo (sid : String) : Op → Bool
  | Op.upload k _ _ => decide (k = some sid)
  | Op.build k _ _ _ => decide (k = sid)
  | Op.statusCheck _ => false
  | Op.ask _ _ => false

/-- Store-level invariant: every completed session holds a pipeline. -/
def StoreInv (store : DocumentStore) : Prop :=
  ∀ e ∈ store, e.2.status = statusCompleted → e.2.retrieval_chain ≠ none

/-! ## Basic lemmas about the store -/

theorem lookupKey_mem {α : Type} (k : String) (l : List (String × α)) (v : α)
    (h : lookupKey k l = some v) : (k, v) ∈ l := by
  induction l with
  | nil => exact absurd h (by simp [lookupKey])
  | cons e rest ih =>
    simp only [lookupKey] at h
    by_cases hk : k = e.1
    · rw [if_pos hk] at h
      have hv : e.2 = v := Option.some.inj h
      have he : (k, v) = e := by
        obtain ⟨a, b⟩ := e
        simp only at hk hv
        rw [hk, hv]
      rw [he]
      exact List.mem_cons_self e rest
    · rw [if_neg hk] at h
      exact List.mem_cons_of_mem e (ih h)

theorem lookupKey_setSession_self (sid : String) (s : Session) (store : DocumentStore) :
    lookupKey sid (setSession sid s store) = (lookupKey sid store).map (fun _ => s) := by
  induction store with
  | nil => rfl
  | cons e rest ih =>
    by_cases h : e.1 = sid
    · simp [setSession, lookupKey, h]
    · have h2 : ¬ sid = e.1 := fun hs => h hs.symm
      simp only [setSession, List.map_cons, if_neg h, lookupKey, if_neg h2]
      exact ih

theorem lookupKey_setSession_ne (k sid : String) (s : Session) (store : DocumentStore)
    (h : k ≠ sid) :
    lookupKey k (setSession sid s store) = lookupKey k store := by
  induction store with
  | nil => rfl
  | cons e rest ih =>
    by_cases he : e.1 = sid
    · simp only [setSession, List.map_cons, if_pos he, lookupKey, if_neg h,
        if_neg (he ▸ h)]
      exact ih
    · simp only [setSession, List.map_cons, if_neg he, lookupKey]
      by_cases hk : k = e.1
      · rw [if_pos hk, if_pos hk]
      · rw [if_neg hk, if_neg hk]
        exact ih

theorem get_or_create_fst (sid : String) (store : DocumentStore) :
    (get_or_create_session_store sid store).1
      = (lookupKey sid store).getD freshSession := by
  cases h : lookupKey sid store <;> simp [get_or_create_session_store, h]

theorem get_or_create_snd_self (sid : String) (store : DocumentStore) :
    lookupKey sid (get_or_create_session_store sid store).2
      = some ((lookupKey sid store).getD freshSession) := by
  cases h : lookupKey sid store <;> simp [get_or_create_session_store, h, lookupKey]

theorem get_or_create_snd_ne (k sid : String) (store : DocumentStore) (h : k ≠ sid) :
    lookupKey k (get_or_create_session_store sid store).2 = lookupKey k store := by
  cases hl : lookupKey sid store <;> simp [get_or_create_session_store, hl, lookupKey, h]

theorem get_or_create_found (sid : String) (store : DocumentStore) (s : Session)
    (h : lookupKey sid store = some s) :
    get_or_create_session_store sid store = (s, store) := by
  simp [get_or_create_session_store, h]

/-- The `ask_question` handler never writes a session back: its store component is
exactly the store after the `get_or_create_session_store` call. -/
theorem ask_question_snd (res : Except String PipelineResponse) (req : QuestionRequest)
    (store : DocumentStore) :
    (ask_question res req store).2
      = (get_or_create_session_store req.session_id store).2 := by
  unfold ask_question
  dsimp only
  repeat' split
  all_goals rfl

/-! ## C2, C10, C3, C4: the pure helpers -/

/-- C2: `format_inputs`, given a mapping containing exactly one of the keys
`question` or `input`, returns the mapping with that value under
`question`; given a mapping with neither key, it fails with the
missing-question-key `ValueError`.  (It is a pure Lean function, hence
side-effect-free.) -/
theorem format_inputs_contract (inputs : Dict) (v : String) :
    ((lookupKey questionKey inputs = some v ∧ lookupKey inputKey inputs = none) →
        format_inputs inputs = Except.ok [(questionKey, v)])
    ∧ ((lookupKey inputKey inputs = some v ∧ lookupKey questionKey inputs = none) →
        format_inputs inputs = Except.ok [(questionKey, v)])
    ∧ ((lookupKey questionKey inputs = none ∧ lookupKey inputKey inputs = none) →
        format_inputs inputs = Except.error missingKeyError) := by
  refine ⟨?_, ?_, ?_⟩ <;> rintro ⟨h1, h2⟩ <;> simp [format_inputs, h1, h2]

/-- Witness for C2 at concrete inputs. -/
theorem format_inputs_contract_witness :
    format_inputs [(questionKey, ("X"))] = Except.ok [(questionKey, ("X"))]
    ∧ format_inputs [(inputKey, ("Y"))] = Except.ok [(questionKey, ("Y"))]
    ∧ format_inputs [] = Except.error missingKeyError :=
  ⟨(format_inputs_contract [(questionKey, ("X"))] ("X")).1 ⟨rfl, rfl⟩,
   (format_inputs_contract [(inputKey, ("Y"))] ("Y")).2.1 ⟨rfl, rfl⟩,
   (format_inputs_contract [] ("Z")).2.2 ⟨rfl, rfl⟩⟩

/-- C10: when a mapping contains both `question` and `input`,
`format_inputs` returns the value stored under `question`. -/
theorem format_inputs_question_precedence (inputs : Dict) (v w : String)
    (hq : lookupKey questionKey inputs = some v)
    (_hi : lookupKey inputKey inputs = some w) :
    format_inputs inputs = Except.ok [(questionKey, v)] := by
  simp [format_inputs, hq]

/-- Witness for C10 at a concrete two-key mapping. -/
theorem format_inputs_question_precedence_witness :
    format_inputs [(questionKey, ("A")), (inputKey, ("B"))]
      = Except.ok [(questionKey, ("A"))] :=
  format_inputs_question_precedence [(questionKey, ("A")), (inputKey, ("B"))]
    ("A") ("B") rfl rfl

/-- C3: `extract_answer` probes the keys in the fixed priority order
`answer`, `result`, `output`, `response`, returns the first value present,
and falls back to the Python string rendering of the whole result when the
result is a mapping with none of the keys or is not a mapping at all; in
particular the three concrete examples of the claim. -/
theorem extract_answer_priority :
    (∀ (entries : Dict) (v : String), lookupKey answerKey entries = some v →
        extract_answer (PipelineResponse.dict entries) = v)
    ∧ (∀ (entries : Dict) (v : String), lookupKey answerKey entries = none →
        lookupKey resultKey entries = some v →
        extract_answer (PipelineResponse.dict entries) = v)
    ∧ (∀ (entries : Dict) (v : String), lookupKey answerKey entries = none →
        lookupKey resultKey entries = none → lookupKey outputKey entries = some v →
        extract_answer (PipelineResponse.dict entries) = v)
    ∧ (∀ (entries : Dict) (v : String), lookupKey answerKey entries = none →
        lookupKey resultKey entries = none → lookupKey outputKey entries = none →
        lookupKey responseKey entries = some v →
        extract_answer (PipelineResponse.dict entries) = v)
    ∧ (∀ entries : Dict, lookupKey answerKey entries = none →
        lookupKey resultKey entries = none → lookupKey outputKey entries = none →
        lookupKey responseKey entries = none →
        extract_answer (PipelineResponse.dict entries) = pyStrOfDict entries)
    ∧ (∀ rendered : String, extract_answer (PipelineResponse.other rendered) = rendered)
    ∧ extract_answer (PipelineResponse.dict [(resultKey, ("A"))]) = ("A")
    ∧ extract_answer (PipelineResponse.dict [(answerKey, ("A")), (resultKey, ("B"))]) = ("A")
    ∧ extract_answer (PipelineResponse.dict [(("foo"), ("A"))])
        = pyStrOfDict [(("foo"), ("A"))] := by
  refine ⟨?_, ?_, ?_, ?_, ?_, ?_, by decide, by decide, by decide⟩ <;>
    intros <;> simp [extract_answer, *]

/-- Witness for C3, applying the second-priority clause concretely. -/
theorem extract_answer_priority_witness :
    extract_answer (PipelineResponse.dict [(resultKey, ("A"))]) = ("A") :=
  extract_answer_priority.2.1 [(resultKey, ("A"))] ("A") rfl rfl

/-- C4 counterexample: on the claim's first example the code returns
`Final Answer:X` (the text after the delimiter is stripped and then
re-prefixed with `Final Answer:` without a space), not `Final Answer: X`
as the claim states. -/
theorem split_reasoning_claim_counterexample :
    (split_reasoning ("step1\n\nFinal Answer: X")).answer = ("Final Answer:X")
    ∧ ("Final Answer:X") ≠ ("Final Answer: X") :=
  ⟨by decide, by decide⟩

/-- C4 (amended): the delimiter example yields `thinking=step1` and
`answer=Final Answer:X`; the paragraph and single-line examples are as
claimed; and on an input with both the delimiter and multiple paragraphs
the delimiter case takes priority (the paragraph rule would keep the
space in `Final Answer: c`). -/
theorem split_reasoning_cases :
    split_reasoning ("step1\n\nFinal Answer: X")
      = { thinking := some ("step1"), answer := ("Final Answer:X") }
    ∧ split_reasoning ("p1\n\np2\n\np3")
      = { thinking := some ("p1\n\np2"), answer := ("p3") }
    ∧ split_reasoning ("single line") = { thinking := none, answer := ("single line") }
    ∧ split_reasoning ("a\n\nb\n\nFinal Answer: c")
      = { thinking := some ("a\n\nb"), answer := ("Final Answer:c") } :=
  ⟨by decide, by decide, by decide, by decide⟩

/-! ## The completed-implies-pipeline invariant (C1) -/

theorem statusNone_ne : statusNone ≠ statusCompleted := by decide

theorem statusUploaded_ne : statusUploaded ≠ statusCompleted := by decide

theorem statusProcessing_ne : statusProcessing ≠ statusCompleted := by decide

theorem statusError_ne : statusError ≠ statusCompleted := by decide

theorem storeInv_setSession {store : DocumentStore} (h : StoreInv store)
    (sid : String) {s : Session}
    (hs : s.status = statusCompleted → s.retrieval_chain ≠ none) :
    StoreInv (setSession sid s store) := by
  intro e he
  simp only [setSession, List.mem_map] at he
  obtain ⟨a, ha, hae⟩ := he
  by_cases hc : a.1 = sid
  · rw [if_pos hc] at hae
    rw [← hae]
    exact hs
  · rw [if_neg hc] at hae
    rw [← hae]
    exact h a ha

theorem storeInv_get_or_create {store : DocumentStore} (h : StoreInv store) (sid : String) :
    StoreInv (get_or_create_session_store sid store).2 := by
  cases hl : lookupKey sid store with
  | some s => simpa [get_or_create_session_store, hl] using h
  | none =>
    simp only [get_or_create_session_store, hl]
    intro e he
    rcases List.mem_cons.mp he with he | hmem
    · rw [he]
      intro hc
      exact absurd hc statusNone_ne
    · exact h e hmem

theorem storeInv_step (store : DocumentStore) (op : Op) (h : StoreInv store) :
    StoreInv (stepStore store op) := by
  cases op with
  | upload sid fn io =>
    cases sid with
    | none => simpa [stepStore, upload_document] using h
    | some s =>
      by_cases he : s = ""
      · simpa [stepStore, upload_document, he] using h
      · by_cases hp : pyEndsWith (pyLower fn.data) pdfSuffix.data = false
        · simpa [stepStore, upload_document, he, hp] using h
        · cases io with
          | error e => simpa [stepStore, upload_document, he, hp] using h
          | ok u =>
            simp only [stepStore, upload_document, if_neg he, hp, if_neg, reduceIte]
            exact storeInv_setSession (storeInv_get_or_create h s) s
              (fun hc => absurd hc statusUploaded_ne)
  | build sid fn running res =>
    have h1 : StoreInv (setSession sid
        { (get_or_create_session_store sid store).1 with
          status := statusProcessing, filename := some fn }
        (get_or_create_session_store sid store).2) :=
      storeInv_setSession (storeInv_get_or_create h sid) sid
        (fun hc => absurd hc statusProcessing_ne)
    cases running with
    | false =>
      simp only [stepStore, process_document, Bool.false_eq_true, if_neg, reduceIte]
      exact storeInv_setSession h1 sid (fun hc => absurd hc statusError_ne)
    | true =>
      cases res with
      | ok chain =>
        simp only [stepStore, process_document, reduceIte]
        exact storeInv_setSession h1 sid (fun _ => by simp)
      | error e =>
        simp only [stepStore, process_document, reduceIte]
        exact storeInv_setSession h1 sid (fun hc => absurd hc statusError_ne)
  | statusCheck sid => exact storeInv_get_or_create h sid
  | ask req res =>
    have h2 := ask_question_snd res req store
    simp only [stepStore]
    rw [h2]
    exact storeInv_get_or_create h req.session_id

theorem storeInv_runOps_from (ops : List Op) :
    ∀ store : DocumentStore, StoreInv store → StoreInv (runOps store ops) := by
  induction ops with
  | nil => intro store h; exact h
  | cons op rest ih =>
    intro store h
    exact ih (stepStore store op) (storeInv_step store op h)

theorem storeInv_runOps (ops : List Op) : StoreInv (runOps document_store ops) :=
  storeInv_runOps_from ops document_store (fun e he => absurd he (by simp [document_store]))

/-- C1 (amended): at every point in the operation sequence, if a session's
status equals completed then its retrieval_chain is non-null.  (The
converse direction of the claimed iff is refuted by the counterexample:
re-uploading to a completed session keeps the old pipeline while status
returns to uploaded.) -/
theorem completed_status_implies_pipeline (ops : List Op) (sid : String) (s : Session)
    (h : lookupKey sid (runOps document_store ops) = some s)
    (hc : s.status = statusCompleted) :
    s.retrieval_chain ≠ none :=
  storeInv_runOps ops (sid, s) (lookupKey_mem sid _ s h) hc

/-- Witness for C1 on a concrete upload-then-successful-build trace. -/
theorem completed_status_implies_pipeline_witness :
    ({ status := statusCompleted, retrieval_chain := some 0, filename := some ("a.pdf"),
       error := none } : Session).retrieval_chain ≠ none :=
  completed_status_implies_pipeline
    [Op.upload (some ("s")) ("a.pdf") (Except.ok ()),
     Op.build ("s") ("a.pdf") true (Except.ok 0)]
    ("s") _ (by decide) (by decide)

/-- C1 counterexample: upload, successful build, then a second upload to
the same session leaves `retrieval_chain` non-null while the status is
`uploaded`, refuting the claimed iff. -/
theorem session_invariant_counterexample :
    lookupKey ("s") (runOps document_store
      [Op.upload (some ("s")) ("a.pdf") (Except.ok ()),
       Op.build ("s") ("a.pdf") true (Except.ok 0),
       Op.upload (some ("s")) ("a.pdf") (Except.ok ())])
    = some { status := statusUploaded, retrieval_chain := some 0,
             filename := some ("a.pdf"), error := none }
    ∧ statusUploaded ≠ statusCompleted :=
  ⟨by decide, by decide⟩

/-! ## C5: the Ollama pre-flight check in process_document -/

/-- C5 counterexample: the error message stored when the language-model
service is unreachable is the Ollama message from main.py line 89, not the
literal string `service unavailable`. -/
theorem service_unavailable_message_counterexample :
    lookupKey ("s") (process_document false (Except.ok 0) ("s") ("a.pdf") document_store)
      = some { status := statusError, retrieval_chain := none,
               filename := some ("a.pdf"), error := some ollamaNotRunningMsg }
    ∧ ollamaNotRunningMsg ≠ ("service unavailable") :=
  ⟨by decide, by decide⟩

/-- C5 (amended): when the Ollama service is not reachable, the build
transitions the session to status error with the error message
`Ollama is not running. Please start Ollama before processing documents.`,
and performs no further build step: the outcome is independent of the
build result, and the session's retrieval_chain is left untouched. -/
theorem process_document_service_unavailable (build_result : Except String Nat)
    (sid filename : String) (store : DocumentStore) :
    process_document false build_result sid filename store
      = process_document false (Except.ok 0) sid filename store
    ∧ lookupKey sid (process_document false build_result sid filename store)
      = some { status := statusError,
               retrieval_chain := ((lookupKey sid store).getD freshSession).retrieval_chain,
               filename := some filename,
               error := some ollamaNotRunningMsg } := by
  constructor
  · rfl
  · unfold process_document
    dsimp only
    rw [if_neg (by decide : ¬ (false = true))]
    rw [lookupKey_setSession_self, lookupKey_setSession_self, get_or_create_snd_self,
        get_or_create_fst]
    rfl

/-! ## C6 and C7: ask_question pre- and post-conditions -/

/-- C6: for a session whose status is not completed, `ask_question` fails
with a 400 error whose detail is the prior error (when the status is
`error`) or the fixed not-completed message; the store is unchanged and
the retrieval pipeline is never invoked (the outcome is independent of the
invocation result). -/
theorem ask_question_not_ready (invoke_result invoke_result2 : Except String PipelineResponse)
    (request : QuestionRequest) (store : DocumentStore) (s : Session)
    (hs : lookupKey request.session_id store = some s)
    (hne : s.status ≠ statusCompleted) :
    ask_question invoke_result request store = ask_question invoke_result2 request store
    ∧ (ask_question invoke_result request store).2 = store
    ∧ (ask_question invoke_result request store).1
      = Except.error
          { status_code := 400,
            detail := if s.status = statusError
                      then errorProcessingDocPre ++ pyStrOfNullable s.error
                      else notCompletedMsg } := by
  have hg := get_or_create_found request.session_id store s hs
  by_cases he : s.status = statusError
  · refine ⟨?_, ?_, ?_⟩ <;> simp [ask_question, hg, hne, he, statusError_ne]
  · refine ⟨?_, ?_, ?_⟩ <;> simp [ask_question, hg, hne, he]

/-- Witness for C6 on a fresh (status none) session. -/
theorem ask_question_not_ready_witness :
    ask_question (Except.ok (PipelineResponse.other ("r")))
        { question := ("q"), session_id := ("s"), include_reasoning := false }
        [(("s"), freshSession)]
      = ask_question (Except.error ("boom"))
          { question := ("q"), session_id := ("s"), include_reasoning := false }
          [(("s"), freshSession)]
    ∧ (ask_question (Except.ok (PipelineResponse.other ("r")))
        { question := ("q"), session_id := ("s"), include_reasoning := false }
        [(("s"), freshSession)]).2 = [(("s"), freshSession)]
    ∧ (ask_question (Except.ok (PipelineResponse.other ("r")))
        { question := ("q"), session_id := ("s"), include_reasoning := false }
        [(("s"), freshSession)]).1
      = Except.error
          { status_code := 400,
            detail := if freshSession.status = statusError
                      then errorProcessingDocPre ++ pyStrOfNullable freshSession.error
                      else notCompletedMsg } :=
  ask_question_not_ready (Except.ok (PipelineResponse.other ("r"))) (Except.error ("boom"))
    { question := ("q"), session_id := ("s"), include_reasoning := false }
    [(("s"), freshSession)] freshSession (by decide) (by decide)

/-- C7: when the pipeline invocation throws during `ask_question` on a
completed session, the caller gets a single 500 error carrying the
underlying message, and the session state is unchanged: the store is
untouched, so the status stays completed and the pipeline handle stays
intact. -/
theorem ask_question_generation_failed (e : String) (request : QuestionRequest)
    (store : DocumentStore) (s : Session)
    (hs : lookupKey request.session_id store = some s)
    (hc : s.status = statusCompleted) (hchain : s.retrieval_chain ≠ none) :
    (ask_question (Except.error e) request store).1
      = Except.error { status_code := 500, detail := errorProcessingQuestionPre ++ e }
    ∧ (ask_question (Except.error e) request store).2 = store
    ∧ lookupKey request.session_id (ask_question (Except.error e) request store).2 = some s := by
  have hg := get_or_create_found request.session_id store s hs
  have hfmt : format_inputs [(inputKey, request.question)]
      = Except.ok [(questionKey, request.question)] := rfl
  refine ⟨?_, ?_, ?_⟩ <;> simp [ask_question, hg, hc, hchain, hfmt, hs]

/-- Witness for C7 on a concrete completed session. -/
theorem ask_question_generation_failed_witness :
    (ask_question (Except.error ("boom"))
        { question := ("q"), session_id := ("s"), include_reasoning := false }
        [(("s"), { status := statusCompleted, retrieval_chain := some 0,
                   filename := some ("a.pdf"), error := none })]).1
      = Except.error { status_code := 500, detail := errorProcessingQuestionPre ++ ("boom") }
    ∧ (ask_question (Except.error ("boom"))
        { question := ("q"), session_id := ("s"), include_reasoning := false }
        [(("s"), { status := statusCompleted, retrieval_chain := some 0,
                   filename := some ("a.pdf"), error := none })]).2
      = [(("s"), { status := statusCompleted, retrieval_chain := some 0,
                   filename := some ("a.pdf"), error := none })]
    ∧ lookupKey ("s") (ask_question (Except.error ("boom"))
        { question := ("q"), session_id := ("s"), include_reasoning := false }
        [(("s"), { status := statusCompleted, retrieval_chain := some 0,
                   filename := some ("a.pdf"), error := none })]).2
      = some { status := statusCompleted, retrieval_chain := some 0,
               filename := some ("a.pdf"), error := none } :=
  ask_question_generation_failed ("boom")
    { question := ("q"), session_id := ("s"), include_reasoning := false }
    [(("s"), { status := statusCompleted, retrieval_chain := some 0,
               filename := some ("a.pdf"), error := none })]
    { status := statusCompleted, retrieval_chain := some 0,
      filename := some ("a.pdf"), error := none }
    (by decide) (by decide) (by decide)

/-! ## C8: status of never-uploaded sessions -/

theorem untouched_step (sid : String) (store : DocumentStore) (op : Op)
    (hop : opUploadsTo sid op = false)
    (h : lookupKey sid store = none ∨ lookupKey sid store = some freshSession) :
    lookupKey sid (stepStore store op) = none
      ∨ lookupKey sid (stepStore store op) = some freshSession := by
  cases op with
  | upload k fn io =>
    have hk : k ≠ some sid := by simpa [opUploadsTo] using hop
    cases k with
    | none => simpa [stepStore, upload_document] using h
    | some t =>
      have ht : sid ≠ t := fun he => hk (by rw [he])
      by_cases he : t = ""
      · simpa [stepStore, upload_document, he] using h
      · by_cases hp : pyEndsWith (pyLower fn.data) pdfSuffix.data = false
        · simpa [stepStore, upload_document, he, hp] using h
        · cases io with
          | error e => simpa [stepStore, upload_document, he, hp] using h
          | ok u =>
            have hstep : stepStore store (Op.upload (some t) fn (Except.ok u))
                = setSession t
                    { (get_or_create_session_store t store).1 with status := statusUploaded }
                    (get_or_create_session_store t store).2 := by
              simp [stepStore, upload_document, he, hp]
            rw [hstep, lookupKey_setSession_ne sid t _ _ ht,
                get_or_create_snd_ne sid t store ht]
            exact h
  | build k fn running res =>
    have hk : sid ≠ k := fun he => by simp [opUploadsTo, he] at hop
    have hframe : ∀ (s1 s2 : Session),
        lookupKey sid (setSession k s2 (setSession k s1
          (get_or_create_session_store k store).2)) = lookupKey sid store := by
      intro s1 s2
      rw [lookupKey_setSession_ne sid k _ _ hk, lookupKey_setSession_ne sid k _ _ hk,
          get_or_create_snd_ne sid k store hk]
    cases running with
    | false =>
      simp only [stepStore, process_document, Bool.false_eq_true, if_neg, reduceIte]
      rw [hframe]
      exact h
    | true =>
      cases res with
      | ok chain =>
        simp only [stepStore, process_document, reduceIte]
        rw [hframe]
        exact h
      | error e =>
        simp only [stepStore, process_document, reduceIte]
        rw [hframe]
        exact h
  | statusCheck k =>
    by_cases hk : sid = k
    · rw [hk]
      right
      simp only [stepStore, document_status]
      rw [get_or_create_snd_self]
      rw [hk] at h
      rcases h with h | h <;> simp [h]
    · simp only [stepStore, document_status]
      rw [get_or_create_snd_ne sid k store hk]
      exact h
  | ask req res =>
    simp only [stepStore]
    rw [ask_question_snd]
    by_cases hk : sid = req.session_id
    · rw [hk]
      right
      rw [get_or_create_snd_self]
      rw [hk] at h
      rcases h with h | h <;> simp [h]
    · rw [get_or_create_snd_ne sid req.session_id store hk]
      exact h

theorem untouched_runOps_from (sid : String) (ops : List Op) :
    ∀ store : DocumentStore,
      (∀ op ∈ ops, opUploadsTo sid op = false) →
      (lookupKey sid store = none ∨ lookupKey sid store = some freshSession) →
      (lookupKey sid (runOps store ops) = none
        ∨ lookupKey sid (runOps store ops) = some freshSession) := by
  induction ops with
  | nil => intro store _ h; exact h
  | cons op rest ih =>
    intro store hops h
    exact ih (stepStore store op)
      (fun o ho => hops o (List.mem_cons_of_mem op ho))
      (untouched_step sid store op (hops op (List.mem_cons_self op rest)) h)

/-- C8: for every session identifier to which no upload (and hence no
background build) has ever been addressed, the status-check operation
returns status none with null filename and null error, whatever other
operations the trace contains. -/
theorem status_of_never_uploaded (sid : String) (ops : List Op)
    (h : ∀ op ∈ ops, opUploadsTo sid op = false) :
    (document_status sid (runOps document_store ops)).1
      = { session_id := sid, status := statusNone, filename := none, error := none } := by
  have h2 := untouched_runOps_from sid ops document_store h (Or.inl rfl)
  unfold document_status
  dsimp only
  rcases h2 with h2 | h2 <;> rw [get_or_create_fst, h2] <;> rfl

/-- Witness for C8: a trace that uploads to another session, polls, and
asks about this one, still reports a pristine status for it. -/
theorem status_of_never_uploaded_witness :
    (document_status ("s") (runOps document_store
      [Op.upload (some ("t")) ("a.pdf") (Except.ok ()),
       Op.build ("t") ("a.pdf") true (Except.ok 0),
       Op.statusCheck ("s"),
       Op.ask { question := ("q"), session_id := ("s"), include_reasoning := false }
         (Except.error ("boom"))])).1
      = { session_id := ("s"), status := statusNone, filename := none, error := none } :=
  status_of_never_uploaded ("s")
    [Op.upload (some ("t")) ("a.pdf") (Except.ok ()),
     Op.build ("t") ("a.pdf") true (Except.ok 0),
     Op.statusCheck ("s"),
     Op.ask { question := ("q"), session_id := ("s"), include_reasoning := false }
       (Except.error ("boom"))]
    (by decide)

/-! ## C9: upload validation -/

/-- C9: an upload whose session identifier is missing, or whose filename
does not end in `.pdf` case-insensitively, fails with a 400 error, leaves
the store unchanged, and schedules no background task. -/
theorem upload_document_rejects (session_id : Option String) (filename : String)
    (file_io : Except String Unit) (store : DocumentStore)
    (h : session_id = none ∨ pyEndsWith (pyLower filename.data) pdfSuffix.data = false) :
    ∃ detail, upload_document session_id filename file_io store
      = (Except.error { status_code := 400, detail := detail }, store, []) := by
  rcases h with h | h
  · exact ⟨sessionIdRequiredMsg, by subst h; rfl⟩
  · cases session_id with
    | none => exact ⟨sessionIdRequiredMsg, rfl⟩
    | some sid =>
      by_cases he : sid = ""
      · exact ⟨sessionIdRequiredMsg, by simp [upload_document, he]⟩
      · exact ⟨onlyPdfMsg, by simp [upload_document, he, h]⟩

/-- Witness for C9 on a concrete non-PDF upload. -/
theorem upload_document_rejects_witness :
    ∃ detail, upload_document (some ("s")) ("doc.txt") (Except.ok ()) document_store
      = (Except.error { status_code := 400, detail := detail }, document_store, []) :=
  upload_document_rejects (some ("s")) ("doc.txt") (Except.ok ()) document_store
    (Or.inr (by decide))

end DeepseekRag
